import Mathlib

/-!
Shallow embedding of the size-estimation and task-execution engine of
`src/main.py` (macOS cleanup utility).

The filesystem / subprocess environment is made explicit: each exception path
the Python code catches becomes a case of an environment value, and every
function is translated as a total Lean function over that environment.
Sizes are embedded as `Int` with the sentinel convention of the source
(`-1` = access denied, `n ≥ 0` = measured byte count).  Python strings are
embedded as `List Char` so that every operation computes in the kernel;
a Lean string literal `"yes"` enters the model as `"yes".toList`.
-/

/-- Spec-level tagged size value.  The source represents it as a plain `int`
with `-1` as the access-denied sentinel; `ofInt` is the abstraction map. -/
inductive SizeResult where
  | bytes (n : Nat)
  | accessDenied
deriving DecidableEq, Repr

/-- Abstraction from the `int` convention of the source to `SizeResult`:
`-1` is the denied sentinel, any other value is a byte count. -/
def SizeResult.ofInt (n : Int) : SizeResult :=
  if n = -1 then .accessDenied else .bytes n.toNat

/-- Python truthiness of the `path` argument: `not path` is true for `None`
and for the empty string (`if not path or not os.path.exists(path)`). -/
def pathTruthy : Option (List Char) → Bool
  | none => false
  | some s => s ≠ []

/-- The whitespace characters (ASCII range) recognised by the Python functions
`str.strip()` / `str.split()`. -/
def pyIsSpace (c : Char) : Bool :=
  c = ' ' || c = '\t' || c = '\n' || c = '\x0d' || c = '\x0b' || c = '\x0c'

/-- `s.strip() == ""`, i.e. the string holds nothing but whitespace. -/
def pyBlank (s : List Char) : Bool :=
  s.all pyIsSpace

/-- `s.split()[0]` of Python: the first maximal run of non-whitespace
characters; `none` when there is no token (`IndexError`, caught by the
source). -/
def firstToken (s : List Char) : Option (List Char) :=
  match s.dropWhile pyIsSpace with
  | [] => none
  | rest => some (rest.takeWhile (fun c => !pyIsSpace c))

/-- Digit-string parse underlying Python `int()`: all characters must be
decimal digits (models `int()` on the plain digit tokens `du` emits). -/
def pyDigits (cs : List Char) : Option Nat :=
  if cs ≠ [] && cs.all Char.isDigit then
    some (cs.foldl (fun a c => a * 10 + (c.toNat - 48)) 0)
  else none

/-- Python `int(token)` for a whitespace-free token: optional sign then
digits; anything else raises `ValueError` (here: `none`). -/
def pyInt (s : List Char) : Option Int :=
  match s with
  | '-' :: rest => (pyDigits rest).map (fun n => -(n : Int))
  | '+' :: rest => (pyDigits rest).map (fun n => (n : Int))
  | cs => (pyDigits cs).map (fun n => (n : Int))

/-- The parse of the `du` stdout performed at src/main.py:82-88:
`if result.stdout.strip(): size_blocks = int(result.stdout.split()[0])`,
with `ValueError`/`IndexError` caught (→ `none`). -/
def parseDuStdout (stdout : List Char) : Option Int :=
  if pyBlank stdout then none
  else match firstToken stdout with
    | none => none
    | some t => pyInt t

/-- Outcome of the `subprocess.run` invocation of `du -s` (timeout 30):
either the 30s timeout fired (`subprocess.TimeoutExpired`, caught), or the
command ran and produced captured stdout and stderr.  The stderr text is
only ever logged by the source (the permission-message check at
src/main.py:91-93 merely logs before falling through), so it does not
influence the returned value. -/
inductive DuOutcome where
  | timeout
  | ran (stdout stderr : List Char)
deriving Repr

/-- Numeric total extracted from the `du` tier, `none` when the tier yields
nothing usable (timeout, empty stdout, or unparseable first token). -/
def duParse : DuOutcome → Option Int
  | .timeout => none
  | .ran stdout _stderr => parseDuStdout stdout

/-- Environment of one `get_dir_size` call.  `walkFiles` lists, in walk
order, the files the `os.walk` fallback reaches: `some n` when
`os.path.getsize` returns `n`, `none` when it raises `OSError`/
`PermissionError` (caught at src/main.py:108-110).  Directories `os.walk`
cannot list are silently omitted (its default `onerror=None`), so they
contribute no entries.  `walkRaises` models the outer
`except Exception: return 0` at src/main.py:119-121. -/
structure DirEnv where
  pathExists : Bool
  du : DuOutcome
  walkFiles : List (Option Nat)
  walkRaises : Bool
deriving Repr

/-- The accumulation step of the manual fallback loop (src/main.py:103-110):
readable file sizes are summed, a denied access sets the
`permission_error` flag. -/
def walkAcc (acc : Nat × Bool) (f : Option Nat) : Nat × Bool :=
  match f with
  | some n => (acc.1 + n, acc.2)
  | none => (acc.1, true)

/-- `(total_size, permission_error)` after the fallback walk loop. -/
def walkSum (files : List (Option Nat)) : Nat × Bool :=
  files.foldl walkAcc (0, false)

/-- Result of the manual fallback walk (src/main.py:112-118):
`if total_size > 0: return total_size`,
`if total_size == 0 and permission_error: return -1`,
`return total_size`. -/
def fallbackSize (files : List (Option Nat)) : Int :=
  let r := walkSum files
  if 0 < r.1 then (r.1 : Int)
  else if r.1 = 0 ∧ r.2 = true then -1
  else (r.1 : Int)

/-- `get_dir_size(path)` (src/main.py:66-121).  Absent or falsy path → `0`;
then the `du` tier: a parseable stdout total is returned as
`blocks * 512` immediately; otherwise (timeout, empty or unparseable
stdout — the stderr permission check only logs) the manual walk runs,
with its own catch-all returning `0`. -/
def get_dir_size (path : Option (List Char)) (env : DirEnv) : Int :=
  if pathTruthy path = false then 0
  else if env.pathExists = false then 0
  else
    match duParse env.du with
    | some blocks => blocks * 512
    | none => if env.walkRaises then 0 else fallbackSize env.walkFiles

/-- Spec-side description of the readable total of the fallback walk: the sum of
the sizes of the files whose `getsize` succeeded. -/
def readableSum (files : List (Option Nat)) : Nat :=
  (files.filterMap id).sum

/-- Spec-side description: did at least one file access get denied? -/
def anyDenied (files : List (Option Nat)) : Bool :=
  files.any (fun f => f.isNone)

namespace CleanupTask

/-- `CleanupTask.calculate_size` (src/main.py:203-210): the stored size is
the value `size_func` returned, or `0` when `size_func` raised
(`except Exception: ... self.size = 0`).  `none` models the raise. -/
def calculate_size (sizeFnResult : Option Int) : Int :=
  match sizeFnResult with
  | some n => n
  | none => 0

/-- `CleanupTask.execute` (src/main.py:212-219): the boolean `cleanup_func`
returned, or `False` when it raised.  `none` models the raise. -/
def execute (cleanFnResult : Option Bool) : Bool :=
  match cleanFnResult with
  | some b => b
  | none => false

end CleanupTask

/-- One iteration of the `while True` body of `confirm_action`
(src/main.py:161-169); `some d` means the iteration returned decision `d`,
`none` would mean it looped for another response.  Every branch of the
source body returns (`y`/`yes` → `True`, `n`/`no` → `False`, and the
trailing `return False`), so the loop never actually repeats. -/
def confirm_step (response : List Char) : Option Bool :=
  let r := response.map Char.toLower
  if r = "y".toList ∨ r = "yes".toList then some true
  else if r = "n".toList ∨ r = "no".toList then some false
  else some false

/-- `confirm_action`: the decision obtained from the single loop iteration. -/
def confirm_action (response : List Char) : Bool :=
  (confirm_step response).getD false

/-- Per-target data for one pass of the confirm-and-execute loop of `main`
(src/main.py:743-763): the stored pre-measured `task.size`, the response
the user would give if prompted, and the `cleanup_func` outcome
(`none` = it raises). -/
structure TaskRun where
  size : Int
  response : List Char
  cleanOk : Option Bool
deriving Repr

/-- Observable status of one target in the loop, mirroring the printed
statuses: `Skipping (Empty)` / `Successfully cleaned` /
`Some errors occurred` / `Skipped`. -/
inductive Outcome where
  | skippedEmpty
  | success
  | cleanFailed
  | skippedDeclined
deriving DecidableEq, Repr

/-- What one loop iteration did to a target: its outcome, the bytes added to
`total_cleaned`, whether `confirm_action` was called, and whether
`task.execute()` was called. -/
structure StepResult where
  outcome : Outcome
  added : Int
  prompted : Bool
  cleanInvoked : Bool
deriving Repr

/-- The body of the confirm-and-execute loop for one target
(src/main.py:743-763): `if task.size == 0: continue` skips without
prompting; otherwise `confirm_action` is consulted, and on an affirmative
`task.execute()` runs, with `total_cleaned += task.size` only when both
`task.execute()` succeeded and `task.size > 0`. -/
def runTask (t : TaskRun) : StepResult :=
  if t.size = 0 then ⟨.skippedEmpty, 0, false, false⟩
  else if confirm_action t.response then
    if CleanupTask.execute t.cleanOk then
      ⟨.success, if 0 < t.size then t.size else 0, true, true⟩
    else ⟨.cleanFailed, 0, true, true⟩
  else ⟨.skippedDeclined, 0, true, false⟩

/-- `total_cleaned` after a full pass of the loop over the task list,
starting from `total_cleaned = 0` (src/main.py:741-759). -/
def totalCleaned (ts : List TaskRun) : Int :=
  ts.foldl (fun acc t => acc + (runTask t).added) 0

/-- Spec-side predicate: the targets the summary is supposed to count —
`clean()` outcome `Success` and pre-measured size strictly positive. -/
def contributes (t : TaskRun) : Bool :=
  decide ((runTask t).outcome = Outcome.success) && decide (0 < t.size)

/-- `get_npm_cache_size` (src/main.py:488-494): `0` when the `npm` binary is
absent (`shutil.which` fails); otherwise the path printed by
`npm config get cache` (`none` = the helper returned `None`, `[]` is
falsy) is measured with `get_dir_size`. -/
def get_npm_cache_size (npmPresent : Bool) (pathCmd : Option (List Char))
    (denv : DirEnv) : Int :=
  if npmPresent = false then 0
  else match pathCmd with
    | none => 0
    | some p => if p = [] then 0 else get_dir_size (some p) denv

/-- `cleanup_npm_cache` (src/main.py:301-304): `True` when the `npm` binary
is absent, otherwise the result of running `npm cache clean --force`. -/
def cleanup_npm_cache (npmPresent : Bool) (runCmdResult : Bool) : Bool :=
  if npmPresent = false then true else runCmdResult

/-! ## Helper lemmas -/

theorem walkSum_eq (files : List (Option Nat)) :
    walkSum files = (readableSum files, anyDenied files) := by
  suffices h : ∀ (a : Nat) (b : Bool),
      files.foldl walkAcc (a, b) = (a + readableSum files, b || anyDenied files) by
    simpa using h 0 false
  induction files with
  | nil => intro a b; simp [readableSum, anyDenied]
  | cons f rest ih =>
    intro a b
    cases f with
    | some n =>
      rw [List.foldl_cons]
      show List.foldl walkAcc (a + n, b) rest = _
      rw [ih (a + n) b]
      simp [readableSum, anyDenied, Nat.add_assoc]
    | none =>
      rw [List.foldl_cons]
      show List.foldl walkAcc (a, true) rest = _
      rw [ih a true]
      simp [readableSum, anyDenied]

theorem fallbackSize_tristate (files : List (Option Nat)) :
    fallbackSize files =
      if 0 < readableSum files then (readableSum files : Int)
      else if anyDenied files = true then -1 else 0 := by
  simp only [fallbackSize, walkSum_eq]
  by_cases h : 0 < readableSum files
  · simp [h]
  · have h0 : readableSum files = 0 := by omega
    by_cases hd : anyDenied files = true
    · simp [h, h0, hd]
    · simp [h, h0, hd]

theorem fallbackSize_neg_one_or_nonneg (files : List (Option Nat)) :
    fallbackSize files = -1 ∨ 0 ≤ fallbackSize files := by
  rw [fallbackSize_tristate]
  split_ifs <;> simp

theorem confirm_action_true_iff (r : List Char) :
    confirm_action r = true ↔
      (r.map Char.toLower = "y".toList ∨ r.map Char.toLower = "yes".toList) := by
  unfold confirm_action confirm_step
  dsimp only
  split_ifs with h1 h2
  · exact iff_of_true rfl h1
  · exact iff_of_false (by simp) h1
  · exact iff_of_false (by simp) h1

theorem runTask_added (t : TaskRun) :
    (runTask t).added = if contributes t then t.size else 0 := by
  unfold contributes runTask
  by_cases h0 : t.size = 0
  · simp [h0]
  · by_cases hc : confirm_action t.response
    · by_cases he : CleanupTask.execute t.cleanOk
      · by_cases hp : 0 < t.size
        · simp [h0, hc, he, hp]
        · simp [h0, hc, he, hp]
      · simp [h0, hc, he]
    · simp [h0, hc]

theorem foldl_added (ts : List TaskRun) (a : Int) :
    ts.foldl (fun acc t => acc + (runTask t).added) a
      = a + ((ts.filter contributes).map (fun t => t.size)).sum := by
  induction ts generalizing a with
  | nil => simp
  | cons t rest ih =>
    rw [List.foldl_cons, ih]
    by_cases h : contributes t
    · simp [List.filter_cons, h, runTask_added, add_assoc]
    · simp [List.filter_cons, h, runTask_added]

/-! ## Claim theorems -/

/-- Claim C1: for every path measured by the manual fallback walk of
`get_dir_size` (path exists, `du` tier unusable, walk completes), the
result is exactly tri-state: `Bytes(sum)` when the readable-file sum is
positive even if some accesses were denied, `AccessDenied` when the sum
is 0 and at least one access was denied, and `Bytes(0)` when the sum is 0
with no denial. -/
theorem fallback_walk_tristate (p : List Char) (env : DirEnv) (hp : p ≠ [])
    (hex : env.pathExists = true) (hdu : duParse env.du = none)
    (hw : env.walkRaises = false) :
    SizeResult.ofInt (get_dir_size (some p) env) =
      if 0 < readableSum env.walkFiles then SizeResult.bytes (readableSum env.walkFiles)
      else if anyDenied env.walkFiles = true then SizeResult.accessDenied
      else SizeResult.bytes 0 := by
  unfold get_dir_size
  simp only [pathTruthy, hex, hdu, hw]
  rw [if_neg (by simp [hp]), if_neg (by simp)]
  simp only [Bool.false_eq_true, if_false]
  rw [fallbackSize_tristate]
  by_cases h : 0 < readableSum env.walkFiles
  · have hne : ((readableSum env.walkFiles : Int)) ≠ -1 := by omega
    simp [h, SizeResult.ofInt, hne]
  · by_cases hd : anyDenied env.walkFiles = true
    · simp [h, hd, SizeResult.ofInt]
    · simp [h, hd, SizeResult.ofInt]

/-- Witness for C1: one readable 3-byte file plus one denied file gives
`Bytes(3)`. -/
theorem fallback_walk_tristate_witness :
    SizeResult.ofInt (get_dir_size (some "/p".toList)
        ⟨true, .timeout, [some 3, none], false⟩) =
      if 0 < readableSum [some 3, none] then SizeResult.bytes (readableSum [some 3, none])
      else if anyDenied [some 3, none] = true then SizeResult.accessDenied
      else SizeResult.bytes 0 :=
  fallback_walk_tristate "/p".toList ⟨true, .timeout, [some 3, none], false⟩
    (by decide) rfl rfl rfl

/-- Claim C2: after a complete pass of the confirm-and-execute loop the
total freed equals the sum of the stored pre-measured sizes over exactly
the targets whose outcome was `success` and whose stored size was
positive; sentinel sizes (`-1` = AccessDenied) contribute nothing. -/
theorem total_freed_eq_sum_of_successes (ts : List TaskRun) :
    totalCleaned ts = ((ts.filter contributes).map (fun t => t.size)).sum := by
  simpa using foldl_added ts 0

/-- Claim C3: a target is skipped automatically with no prompt exactly when
its stored size is `Bytes(0)`; a stored `-1` (AccessDenied) or positive
size is always prompted. -/
theorem skip_without_prompt_iff_zero (t : TaskRun) (h : t.size = -1 ∨ 0 ≤ t.size) :
    ((runTask t).prompted = false ∧ (runTask t).outcome = Outcome.skippedEmpty)
      ↔ SizeResult.ofInt t.size = SizeResult.bytes 0 := by
  by_cases h0 : t.size = 0
  · simp [runTask, h0, SizeResult.ofInt]
  · have hL : (runTask t).prompted = true := by
      unfold runTask
      rw [if_neg h0]
      split_ifs <;> rfl
    have hR : SizeResult.ofInt t.size ≠ SizeResult.bytes 0 := by
      rcases h with h1 | h1
      · simp [SizeResult.ofInt, h1]
      · have hne : t.size ≠ -1 := by omega
        simp only [SizeResult.ofInt, hne, if_false, ne_eq, SizeResult.bytes.injEq]
        omega
    simp [hL, hR]

/-- Witness for C3: a zero-size target is auto-skipped without a prompt. -/
theorem skip_without_prompt_iff_zero_witness :
    ((runTask ⟨0, "y".toList, some true⟩).prompted = false ∧
      (runTask ⟨0, "y".toList, some true⟩).outcome = Outcome.skippedEmpty)
      ↔ SizeResult.ofInt (0 : Int) = SizeResult.bytes 0 :=
  skip_without_prompt_iff_zero ⟨0, "y".toList, some true⟩ (Or.inr (by decide))

/-- Claim C4: only an explicit affirmative (`y`/`yes`, case-folded) causes
`task.execute()` to run; every other single response declines at once —
the loop body always returns a decision on its first iteration, so the
prompt never loops for clarification. -/
theorem decline_unless_affirmative (t : TaskRun) :
    (confirm_step t.response).isSome = true ∧
    ((runTask t).cleanInvoked = true →
      t.response.map Char.toLower = "y".toList ∨
        t.response.map Char.toLower = "yes".toList) ∧
    (¬(t.response.map Char.toLower = "y".toList ∨
        t.response.map Char.toLower = "yes".toList) →
      confirm_action t.response = false ∧ (runTask t).cleanInvoked = false) := by
  have hsome : (confirm_step t.response).isSome = true := by
    unfold confirm_step
    dsimp only
    split_ifs <;> rfl
  have hinv : (runTask t).cleanInvoked = true → confirm_action t.response = true := by
    unfold runTask
    by_cases h0 : t.size = 0
    · simp [h0]
    · rw [if_neg h0]
      by_cases hc : confirm_action t.response
      · intro _; exact hc
      · rw [if_neg hc]; intro hfalse; cases hfalse
  refine ⟨hsome, ?_, ?_⟩
  · intro hi
    exact (confirm_action_true_iff t.response).mp (hinv hi)
  · intro hno
    have hca : confirm_action t.response = false := by
      cases hc : confirm_action t.response
      · rfl
      · exact absurd ((confirm_action_true_iff t.response).mp hc) hno
    refine ⟨hca, ?_⟩
    cases hi : (runTask t).cleanInvoked
    · rfl
    · rw [hinv hi] at hca; cases hca

/-- Witness for C4: the ambiguous response `maybe` declines immediately and
never invokes the cleanup. -/
theorem decline_unless_affirmative_witness :
    confirm_action "maybe".toList = false ∧
    (runTask ⟨7, "maybe".toList, some true⟩).cleanInvoked = false ∧
    (confirm_step "maybe".toList).isSome = true := by
  have h := decline_unless_affirmative ⟨7, "maybe".toList, some true⟩
  have hm : ¬(("maybe".toList).map Char.toLower = "y".toList ∨
      ("maybe".toList).map Char.toLower = "yes".toList) := by decide
  exact ⟨(h.2.2 hm).1, (h.2.2 hm).2, h.1⟩

/-- Counterexample for C5: the claim says a raising `sizeFn` is recorded as
an `Unmeasured` value distinct from `Bytes(0)`; the source instead stores
the integer `0`, indistinguishable from a measured empty result. -/
theorem fault_recorded_as_unmeasured_cex :
    CleanupTask.calculate_size none = CleanupTask.calculate_size (some 0) ∧
    SizeResult.ofInt (CleanupTask.calculate_size none) = SizeResult.bytes 0 := by
  constructor
  · rfl
  · decide

/-- Claim C5 (amended): when `sizeFn` raises, `calculate_size` catches the
fault and stores `0` — the same value as a measured `Bytes(0)` — and the
exception never propagates (the stored value is defined for the raising
case). -/
theorem fault_recorded_zero :
    CleanupTask.calculate_size none = 0 ∧
    SizeResult.ofInt (CleanupTask.calculate_size none) ≠ SizeResult.accessDenied := by
  constructor
  · rfl
  · decide

/-- Counterexample for C6: an existing directory whose only file is
permission-denied, for which `du` still prints a parseable `0` total:
`get_dir_size` trusts the `du` stdout and returns `0` (`Bytes(0)`),
not the `-1` AccessDenied sentinel the claim requires. -/
theorem all_denied_du_output_cex :
    get_dir_size (some "/denied".toList)
        ⟨true, .ran "0 /denied".toList
          "du: /denied: Permission denied".toList, [none], false⟩ = 0 ∧
    anyDenied [none] = true ∧ readableSum [none] = 0 ∧
    SizeResult.ofInt (get_dir_size (some "/denied".toList)
        ⟨true, .ran "0 /denied".toList
          "du: /denied: Permission denied".toList, [none], false⟩)
      = SizeResult.bytes 0 := by
  refine ⟨by decide, by decide, by decide, by decide⟩

/-- Claim C6 (amended): for an existing directory whose walk reaches at
least one file and every reached file is permission-denied, whenever the
`du` tier yields no usable numeric total (timeout, empty or unparseable
stdout) and the walk itself completes, `get_dir_size` returns the `-1`
AccessDenied sentinel, never `Bytes(0)`.  When `du` does produce a usable
total, that total is returned instead. -/
theorem all_denied_fallback_access_denied (p : List Char) (env : DirEnv)
    (hp : p ≠ []) (hex : env.pathExists = true) (hdu : duParse env.du = none)
    (hw : env.walkRaises = false) (hne : env.walkFiles ≠ [])
    (hall : ∀ f ∈ env.walkFiles, f = none) :
    get_dir_size (some p) env = -1 := by
  have h0 : readableSum env.walkFiles = 0 := by
    unfold readableSum
    have : env.walkFiles.filterMap id = [] := by
      rw [List.filterMap_eq_nil_iff]
      intro a ha
      rw [hall a ha]
      rfl
    rw [this]
    rfl
  have hd : anyDenied env.walkFiles = true := by
    unfold anyDenied
    cases hf : env.walkFiles with
    | nil => exact absurd hf hne
    | cons f rest =>
      have : f = none := hall f (by rw [hf]; exact List.mem_cons_self f rest)
      simp [this]
  unfold get_dir_size
  rw [if_neg (by simp [pathTruthy, hp]), if_neg (by simp [hex]), hdu]
  simp only [hw, Bool.false_eq_true, if_false]
  rw [fallbackSize_tristate, h0, hd]
  simp

/-- Witness for C6 (amended): `du` times out, the walk sees one denied
file, and the result is `-1`. -/
theorem all_denied_fallback_access_denied_witness :
    get_dir_size (some "/x".toList) ⟨true, .timeout, [none], false⟩ = -1 :=
  all_denied_fallback_access_denied "/x".toList ⟨true, .timeout, [none], false⟩
    (by decide) rfl rfl rfl (by decide) (by decide)

/-- Claim C7: `get_dir_size` is total toward its caller — under the
realistic constraint that a parseable `du` total is non-negative, every
environment yields either the `-1` sentinel or a non-negative byte count
(a `SizeResult`), and a `None`/empty/non-existing path yields `0`
(`Bytes(0)`). -/
theorem measure_total_and_missing_path_zero (path : Option (List Char))
    (env : DirEnv) (hdu : ∀ n, duParse env.du = some n → 0 ≤ n) :
    ((pathTruthy path = false ∨ env.pathExists = false) →
      get_dir_size path env = 0) ∧
    (get_dir_size path env = -1 ∨ 0 ≤ get_dir_size path env) := by
  constructor
  · intro h
    unfold get_dir_size
    rcases h with h | h
    · rw [if_pos h]
    · rw [h]
      simp
  · unfold get_dir_size
    by_cases h1 : pathTruthy path = false
    · rw [if_pos h1]; right; rfl
    · rw [if_neg h1]
      by_cases h2 : env.pathExists = false
      · rw [if_pos h2]; right; rfl
      · rw [if_neg h2]
        cases hdp : duParse env.du with
        | some n =>
          right
          have := hdu n hdp
          positivity
        | none =>
          by_cases hwr : env.walkRaises
          · simp [hwr]
          · simp only [hwr, Bool.false_eq_true, if_false]
            exact fallbackSize_neg_one_or_nonneg env.walkFiles

/-- Witness for C7: a `None` path with a timed-out `du`. -/
theorem measure_total_and_missing_path_zero_witness :
    ((pathTruthy none = false ∨
        (⟨true, DuOutcome.timeout, [], false⟩ : DirEnv).pathExists = false) →
      get_dir_size none ⟨true, DuOutcome.timeout, [], false⟩ = 0) ∧
    (get_dir_size none ⟨true, DuOutcome.timeout, [], false⟩ = -1 ∨
      0 ≤ get_dir_size none ⟨true, DuOutcome.timeout, [], false⟩) :=
  measure_total_and_missing_path_zero none ⟨true, DuOutcome.timeout, [], false⟩
    (fun n h => by simp [duParse] at h)

/-- Claim C8: when the bounded-time `du` command produces a usable numeric
stdout total for an existing path, `get_dir_size` returns that total
times 512 (du reports 512-byte blocks) immediately — the result is
independent of the manual-walk environment and of whatever diagnostics
`du` wrote to stderr. -/
theorem du_total_trusted (p stdoutDu stderrDu : List Char)
    (files : List (Option Nat)) (wr : Bool) (n : Int) (hp : p ≠ [])
    (hparse : parseDuStdout stdoutDu = some n) :
    get_dir_size (some p) ⟨true, .ran stdoutDu stderrDu, files, wr⟩ = n * 512 := by
  unfold get_dir_size
  rw [if_neg (by simp [pathTruthy, hp]), if_neg (by simp)]
  show (match duParse (.ran stdoutDu stderrDu) with
    | some blocks => blocks * 512
    | none => if wr then 0 else fallbackSize files) = n * 512
  rw [show duParse (.ran stdoutDu stderrDu) = some n from hparse]

/-- Witness for C8: `du` reports 16 blocks with a permission diagnostic on
stderr; the walk environment (one 999-byte file, walk raising) is
ignored and the result is `16 * 512 = 8192`. -/
theorem du_total_trusted_witness :
    get_dir_size (some "/p".toList)
        ⟨true, .ran "16 /p".toList "du: /p/sub: Permission denied".toList,
          [some 999], true⟩ = 16 * 512 :=
  du_total_trusted "/p".toList "16 /p".toList
    "du: /p/sub: Permission denied".toList [some 999] true 16
    (by decide) (by decide)

/-- Claim C9: with the `npm` binary absent, `get_npm_cache_size` returns
`0` and `cleanup_npm_cache` returns `True` without raising; the resulting
task stores size `0`, is never prompted, never has its cleanup invoked by
the loop, and contributes nothing to the total. -/
theorem npm_absent_noop (pathCmd : Option (List Char)) (denv : DirEnv)
    (rc : Bool) (resp : List Char) (co : Option Bool) :
    get_npm_cache_size false pathCmd denv = 0 ∧
    cleanup_npm_cache false rc = true ∧
    (runTask ⟨CleanupTask.calculate_size
        (some (get_npm_cache_size false pathCmd denv)), resp, co⟩).prompted
      = false ∧
    (runTask ⟨CleanupTask.calculate_size
        (some (get_npm_cache_size false pathCmd denv)), resp, co⟩).added = 0 := by
  refine ⟨rfl, rfl, ?_, ?_⟩ <;>
    simp [get_npm_cache_size, CleanupTask.calculate_size, runTask]

/-- Claim C10: a target whose size function raises gets stored size `0`
(`calculate_size` catches the fault) and is therefore auto-skipped by the
execution loop: never prompted and its cleanup never invoked. -/
theorem fault_auto_skip (resp : List Char) (co : Option Bool) :
    CleanupTask.calculate_size none = 0 ∧
    (runTask ⟨CleanupTask.calculate_size none, resp, co⟩).prompted = false ∧
    (runTask ⟨CleanupTask.calculate_size none, resp, co⟩).cleanInvoked = false ∧
    (runTask ⟨CleanupTask.calculate_size none, resp, co⟩).outcome
      = Outcome.skippedEmpty := by
  refine ⟨rfl, ?_, ?_, ?_⟩ <;> simp [CleanupTask.calculate_size, runTask]
